import Mathlib

/-!
Shallow embedding of the geographic coordinate core of the Leaflet fork:
`src/geo/LatLng.js` (class `LatLng`) and `src/geo/LatLngBounds.js`
(class `LatLngBounds`).

JavaScript numbers are modelled by `JSNum`: an exact rational together
with the special values `NaN`, `Infinity` and `-Infinity`.  The
comparison, `Math.min`/`Math.max`, absolute value and arithmetic
operators are translated with their JavaScript semantics on these
special values (any comparison involving `NaN` is false, `Math.min`
with a `NaN` argument yields `NaN`, `Infinity * 0` is `NaN`, and so
on).  A thrown exception is modelled by an `Option` result whose
`none` case marks the throw; `undefined`/`null` arguments are
modelled by `Option.none` on the argument side.
-/

/-- Model of a JavaScript number: an exact rational, or one of the
special values `NaN`, `Infinity`, `-Infinity`. -/
inductive JSNum where
  | num (q : ℚ)
  | nan
  | inf
  | negInf
deriving DecidableEq

/-- Truthiness of a JavaScript number: `0` and `NaN` are falsy. -/
def jsTruthy : JSNum → Bool
  | .num q => decide (q ≠ 0)
  | .nan => false
  | _ => true

/-- JavaScript `a <= b` on numbers (`false` whenever `NaN` is involved). -/
def jsLe : JSNum → JSNum → Bool
  | .nan, _ => false
  | _, .nan => false
  | .negInf, _ => true
  | _, .inf => true
  | .num a, .num b => decide (a ≤ b)
  | .num _, .negInf => false
  | .inf, _ => false

/-- JavaScript `a < b` on numbers (`false` whenever `NaN` is involved). -/
def jsLt : JSNum → JSNum → Bool
  | .num a, .num b => decide (a < b)
  | .nan, _ => false
  | _, .nan => false
  | .negInf, .negInf => false
  | .negInf, _ => true
  | _, .negInf => false
  | .inf, _ => false
  | _, .inf => true

/-- JavaScript `a >= b` on numbers. -/
def jsGe (a b : JSNum) : Bool := jsLe b a

/-- JavaScript `a > b` on numbers. -/
def jsGt (a b : JSNum) : Bool := jsLt b a

/-- `Math.min` (propagates `NaN`). -/
def jsMin : JSNum → JSNum → JSNum
  | .nan, _ => .nan
  | _, .nan => .nan
  | .num a, .num b => .num (min a b)
  | .negInf, _ => .negInf
  | _, .negInf => .negInf
  | .inf, b => b
  | a, .inf => a

/-- `Math.max` (propagates `NaN`). -/
def jsMax : JSNum → JSNum → JSNum
  | .nan, _ => .nan
  | _, .nan => .nan
  | .num a, .num b => .num (max a b)
  | .inf, _ => .inf
  | _, .inf => .inf
  | .negInf, b => b
  | a, .negInf => a

/-- JavaScript unary negation on numbers. -/
def jsNeg : JSNum → JSNum
  | .num q => .num (-q)
  | .nan => .nan
  | .inf => .negInf
  | .negInf => .inf

/-- JavaScript addition on numbers. -/
def jsAdd : JSNum → JSNum → JSNum
  | .nan, _ => .nan
  | _, .nan => .nan
  | .num a, .num b => .num (a + b)
  | .inf, .negInf => .nan
  | .negInf, .inf => .nan
  | .inf, _ => .inf
  | _, .inf => .inf
  | .negInf, _ => .negInf
  | _, .negInf => .negInf

/-- JavaScript subtraction on numbers. -/
def jsSub (a b : JSNum) : JSNum := jsAdd a (jsNeg b)

/-- JavaScript multiplication on numbers (`Infinity * 0` is `NaN`). -/
def jsMul : JSNum → JSNum → JSNum
  | .nan, _ => .nan
  | _, .nan => .nan
  | .num a, .num b => .num (a * b)
  | .inf, .inf => .inf
  | .inf, .negInf => .negInf
  | .negInf, .inf => .negInf
  | .negInf, .negInf => .inf
  | .inf, .num b => if b = 0 then .nan else if 0 < b then .inf else .negInf
  | .num a, .inf => if a = 0 then .nan else if 0 < a then .inf else .negInf
  | .negInf, .num b => if b = 0 then .nan else if 0 < b then .negInf else .inf
  | .num a, .negInf => if a = 0 then .nan else if 0 < a then .negInf else .inf

/-- `Math.abs` on numbers. -/
def jsAbs : JSNum → JSNum
  | .num q => .num |q|
  | .nan => .nan
  | _ => .inf

/-- JavaScript division by the literal `2`. -/
def jsDiv2 : JSNum → JSNum
  | .num q => .num (q / 2)
  | .nan => .nan
  | .inf => .inf
  | .negInf => .negInf

/-- Unary `+` coercion applied to a possibly-`undefined` number
(`+undefined` is `NaN`; on a number it is the identity). -/
def jsPlusCoerce : Option JSNum → JSNum
  | some x => x
  | none => .nan

/-- Model of a `LatLng` instance: fields `lat`, `lng`, and the optional
field `alt` (absent field modelled as `none`). -/
structure LatLng where
  lat : JSNum
  lng : JSNum
  alt : Option JSNum
deriving DecidableEq

/-- The accepted first-argument shapes of the `LatLng` constructor and
of `LatLng.validate`: a bare number, an array of numbers, an object
literal with a `lat` key and optional `lng`/`lon`/`alt` keys, or an
existing `LatLng` instance.  (Arrays whose first element is itself an
object do not occur on any path modelled here.) -/
inductive LatLngArg where
  | num (x : JSNum)
  | arr (xs : List JSNum)
  | record (latv : JSNum) (lngv lonv altv : Option JSNum)
  | pt (p : LatLng)
deriving DecidableEq

/-- JavaScript truthiness of a constructor argument (arrays, object
literals and instances are always truthy). -/
def argTruthy : LatLngArg → Bool
  | .num x => jsTruthy x
  | _ => true

/-- Model of `LatLng.validate(lat, lng, alt)` from `src/geo/LatLng.js`:
instances and objects with a `lat` key validate; arrays of numbers
validate iff their length is 3 or 2; bare scalars validate iff both
`lat` and `lng` are truthy-or-`0` (that is, present and not `NaN`). -/
def LatLng.validate (lat : LatLngArg) (lng _alt : Option JSNum) : Bool :=
  match lat with
  | .pt _ => true
  | .record _ _ _ _ => true
  | .arr xs => decide (xs.length = 3) || decide (xs.length = 2)
  | .num a =>
    (jsTruthy a || decide (a = .num 0)) &&
    (match lng with
     | some b => jsTruthy b || decide (b = .num 0)
     | none => false)

/-- Model of the `LatLng` constructor: throws (`none`) when `validate`
fails; returns the argument itself when it is already a `LatLng`;
otherwise normalizes arrays, object literals (with the `lon` alias and
`+undefined = NaN` for a missing `lng`/`lon`) and scalars into the
canonical fields. -/
def LatLng.construct (lat : LatLngArg) (lng alt : Option JSNum) : Option LatLng :=
  if LatLng.validate lat lng alt then
    match lat with
    | .pt p => some p
    | .arr [a, b, c] => some ⟨a, b, some c⟩
    | .arr [a, b] => some ⟨a, b, none⟩
    | .arr _ => none
    | .record la lngv lonv altv => some ⟨la, jsPlusCoerce (lngv <|> lonv), altv⟩
    | .num a => some ⟨a, jsPlusCoerce lng, alt⟩
  else none

/-- Model of `LatLng.prototype.equals(obj, maxMargin)`: `false` for a
falsy argument, otherwise normalizes the argument through the `LatLng`
constructor and compares the larger per-axis absolute difference with
`maxMargin ?? 1.0E-9`. -/
def LatLng.equals (p : LatLng) (obj : Option LatLngArg) (maxMargin : Option JSNum) :
    Option Bool :=
  match obj with
  | none => some false
  | some a =>
    if argTruthy a then
      match LatLng.construct a none none with
      | none => none
      | some o =>
        let margin := jsMax (jsAbs (jsSub p.lat o.lat)) (jsAbs (jsSub p.lng o.lng))
        some (jsLe margin (maxMargin.getD (.num (1 / 1000000000))))
    else some false

/-- Model of a `LatLngBounds` instance: the `_southWest` and
`_northEast` fields, each either a `LatLng` or unset (`undefined`). -/
structure LatLngBounds where
  southWest : Option LatLng
  northEast : Option LatLng
deriving DecidableEq

/-- A freshly constructed `LatLngBounds` with neither corner set. -/
def LatLngBounds.empty : LatLngBounds := ⟨none, none⟩

/-- The argument shapes of `LatLngBounds.prototype.extend` (and of the
per-element step of the `LatLngBounds` constructor): a `LatLng`
instance, a `LatLngBounds` instance, a raw `LatLng`-convertible shape,
or `undefined`/`null`. -/
inductive ExtendObj where
  | pt (p : LatLng)
  | bounds (b : LatLngBounds)
  | arg (a : LatLngArg)
  | undef
deriving DecidableEq

/-- JavaScript truthiness of an `extend` argument. -/
def extTruthy : ExtendObj → Bool
  | .arg a => argTruthy a
  | .undef => false
  | _ => true

/-- The tail of `extend` once corner points `sw2`/`ne2` are known: with
both corners unset it stores fresh `new LatLng(lat, lng)` copies
(whose constructor can throw on `NaN`); with both corners set it
updates them in place with `Math.min`/`Math.max`; with exactly one
corner set the in-place update dereferences `undefined` and throws. -/
def LatLngBounds.extendCorners (b : LatLngBounds) (sw2 ne2 : LatLng) :
    Option LatLngBounds :=
  match b.southWest, b.northEast with
  | none, none => do
    let sw ← LatLng.construct (.num sw2.lat) (some sw2.lng) none
    let ne ← LatLng.construct (.num ne2.lat) (some ne2.lng) none
    some ⟨some sw, some ne⟩
  | some sw, some ne =>
    some ⟨some ⟨jsMin sw2.lat sw.lat, jsMin sw2.lng sw.lng, sw.alt⟩,
          some ⟨jsMax ne2.lat ne.lat, jsMax ne2.lng ne.lng, ne.alt⟩⟩
  | _, _ => none

/-- `extend` with a `LatLngBounds` argument: a no-op when the argument
has an unset corner, otherwise extends by both of its corners. -/
def LatLngBounds.extendBounds (b b2 : LatLngBounds) : Option LatLngBounds :=
  match b2.southWest, b2.northEast with
  | some sw2, some ne2 => LatLngBounds.extendCorners b sw2 ne2
  | _, _ => some b

/-- `extend` with a bare number argument: a falsy number (`0`, `NaN`)
is a no-op; any other number falls through to
`new LatLngBounds(number)`, whose `for..of` over a non-iterable
throws. -/
def LatLngBounds.extendNum (b : LatLngBounds) (x : JSNum) : Option LatLngBounds :=
  if jsTruthy x then none else some b

/-- `extend` with a raw (non-instance) argument: falsy arguments are a
no-op; `validate`-able shapes are converted through the `LatLng`
constructor; a truthy array of numbers of invalid length is fed to the
`LatLngBounds` constructor (which iterates its numeric elements);
a truthy bare number given to the `LatLngBounds` constructor throws. -/
def LatLngBounds.extendArg (b : LatLngBounds) (a : LatLngArg) : Option LatLngBounds :=
  if argTruthy a then
    if LatLng.validate a none none then do
      let p ← LatLng.construct a none none
      LatLngBounds.extendCorners b p p
    else
      match a with
      | .arr xs => do
        let b2 ← xs.foldlM LatLngBounds.extendNum LatLngBounds.empty
        LatLngBounds.extendBounds b b2
      | _ => none
  else some b

/-- Model of `LatLngBounds.prototype.extend`. -/
def LatLngBounds.extend (b : LatLngBounds) (obj : ExtendObj) : Option LatLngBounds :=
  match obj with
  | .pt p => LatLngBounds.extendCorners b p p
  | .bounds b2 => LatLngBounds.extendBounds b b2
  | .undef => some b
  | .arg a => LatLngBounds.extendArg b a

/-- First-argument shapes of the `LatLngBounds` constructor: an
existing `LatLngBounds` (aliased), a single corner shape, or an array
of point shapes. -/
inductive BoundsCon where
  | bounds (b : LatLngBounds)
  | one (o : ExtendObj)
  | list (l : List ExtendObj)
deriving DecidableEq

/-- JavaScript truthiness of a `LatLngBounds` constructor argument. -/
def conTruthy : BoundsCon → Bool
  | .one o => extTruthy o
  | _ => true

/-- Iterating `for (const latlng of latlngs)` with `extend` over a
single non-array corner value: only an array of numbers is iterable
(element-wise `extend`); any other single value throws. -/
def LatLngBounds.iterateOne (o : ExtendObj) : Option LatLngBounds :=
  match o with
  | .arg (.arr xs) =>
    xs.foldlM (fun b x => LatLngBounds.extend b (.arg (.num x))) LatLngBounds.empty
  | _ => none

/-- Model of the `LatLngBounds` constructor `new LatLngBounds(corner1,
corner2)`: a falsy `corner1` yields the empty instance; an existing
`LatLngBounds` is returned itself; otherwise `extend` is folded over
`[corner1, corner2]` when `corner2` is truthy and over the elements of
`corner1` when it is not. -/
def LatLngBounds.mkBounds (c1 : Option BoundsCon) (c2 : Option ExtendObj) :
    Option LatLngBounds :=
  match c1 with
  | none => some LatLngBounds.empty
  | some con =>
    if conTruthy con then
      match con with
      | .bounds b => some b
      | .one o =>
        match c2 with
        | some o2 =>
          if extTruthy o2 then
            [o, o2].foldlM LatLngBounds.extend LatLngBounds.empty
          else LatLngBounds.iterateOne o
        | none => LatLngBounds.iterateOne o
      | .list l =>
        match c2 with
        | some o2 =>
          if extTruthy o2 then do
            let inner ← l.foldlM LatLngBounds.extend LatLngBounds.empty
            let b1 ← LatLngBounds.extendBounds LatLngBounds.empty inner
            LatLngBounds.extend b1 o2
          else l.foldlM LatLngBounds.extend LatLngBounds.empty
        | none => l.foldlM LatLngBounds.extend LatLngBounds.empty
    else some LatLngBounds.empty

/-- Model of `isValid()`: both corners are set. -/
def LatLngBounds.isValid (b : LatLngBounds) : Bool :=
  b.southWest.isSome && b.northEast.isSome

/-- Model of `getSouthWest()` (returns the stored, possibly unset,
corner without throwing). -/
def LatLngBounds.getSouthWest (b : LatLngBounds) : Option LatLng := b.southWest

/-- Model of `getNorthEast()` (returns the stored, possibly unset,
corner without throwing). -/
def LatLngBounds.getNorthEast (b : LatLngBounds) : Option LatLng := b.northEast

/-- Model of `getWest()`: dereferences `_southWest` (`none` = the
`TypeError` thrown when the corner is unset). -/
def LatLngBounds.getWest (b : LatLngBounds) : Option JSNum :=
  b.southWest.map (·.lng)

/-- Model of `getSouth()`. -/
def LatLngBounds.getSouth (b : LatLngBounds) : Option JSNum :=
  b.southWest.map (·.lat)

/-- Model of `getEast()`. -/
def LatLngBounds.getEast (b : LatLngBounds) : Option JSNum :=
  b.northEast.map (·.lng)

/-- Model of `getNorth()`. -/
def LatLngBounds.getNorth (b : LatLngBounds) : Option JSNum :=
  b.northEast.map (·.lat)

/-- Model of `getNorthWest()`: `new LatLng(getNorth(), getWest())`. -/
def LatLngBounds.getNorthWest (b : LatLngBounds) : Option LatLng := do
  let n ← b.getNorth
  let w ← b.getWest
  LatLng.construct (.num n) (some w) none

/-- Model of `getSouthEast()`: `new LatLng(getSouth(), getEast())`. -/
def LatLngBounds.getSouthEast (b : LatLngBounds) : Option LatLng := do
  let s ← b.getSouth
  let e ← b.getEast
  LatLng.construct (.num s) (some e) none

/-- Model of `getCenter()`: the per-axis arithmetic mean of the two
corners, passed through the `LatLng` constructor. -/
def LatLngBounds.getCenter (b : LatLngBounds) : Option LatLng :=
  match b.southWest, b.northEast with
  | some sw, some ne =>
    LatLng.construct (.num (jsDiv2 (jsAdd sw.lat ne.lat)))
      (some (jsDiv2 (jsAdd sw.lng ne.lng))) none
  | _, _ => none

/-- Model of `pad(bufferRatio)`: computes the scaled per-axis buffers
and builds a fresh `LatLngBounds` from two fresh `LatLng` corners;
dereferencing an unset corner throws. -/
def LatLngBounds.pad (b : LatLngBounds) (bufferRatio : JSNum) : Option LatLngBounds :=
  match b.southWest, b.northEast with
  | some sw, some ne =>
    let heightBuffer := jsMul (jsAbs (jsSub sw.lat ne.lat)) bufferRatio
    let widthBuffer := jsMul (jsAbs (jsSub sw.lng ne.lng)) bufferRatio
    do
      let c1 ← LatLng.construct (.num (jsSub sw.lat heightBuffer))
        (some (jsSub sw.lng widthBuffer)) none
      let c2 ← LatLng.construct (.num (jsAdd ne.lat heightBuffer))
        (some (jsAdd ne.lng widthBuffer)) none
      LatLngBounds.mkBounds (some (.one (.pt c1))) (some (.pt c2))
  | _, _ => none

/-- Model of `contains(obj)`: the argument is normalized to a pair of
corner points (through the `LatLng` constructor when it
`validate`s, else through the `LatLngBounds` constructor), then
compared inclusively against the receiver's corners. -/
def LatLngBounds.contains (b : LatLngBounds) (obj : ExtendObj) : Option Bool := do
  let corners ←
    (match obj with
     | .pt p => some (p, p)
     | .bounds b2 =>
       match b2.southWest, b2.northEast with
       | some s, some n => some (s, n)
       | _, _ => none
     | .undef => none
     | .arg a =>
       if LatLng.validate a none none then
         (LatLng.construct a none none).map fun p => (p, p)
       else do
         let b2 ← LatLngBounds.mkBounds (some (.one (.arg a))) none
         match b2.southWest, b2.northEast with
         | some s, some n => some (s, n)
         | _, _ => none)
  let sw ← b.southWest
  let ne ← b.northEast
  some (jsGe corners.1.lat sw.lat && jsLe corners.2.lat ne.lat &&
        jsGe corners.1.lng sw.lng && jsLe corners.2.lng ne.lng)

/-- Model of `intersects(bounds)`: inclusive opposing-corner test on
both axes after normalizing the argument through the constructor. -/
def LatLngBounds.intersects (b : LatLngBounds) (arg : Option BoundsCon) : Option Bool := do
  let b2 ← LatLngBounds.mkBounds arg none
  let sw ← b.southWest
  let ne ← b.northEast
  let sw2 ← b2.southWest
  let ne2 ← b2.northEast
  some ((jsGe ne2.lat sw.lat && jsLe sw2.lat ne.lat) &&
        (jsGe ne2.lng sw.lng && jsLe sw2.lng ne.lng))

/-- Model of `overlaps(bounds)`: strict opposing-corner test on both
axes after normalizing the argument through the constructor. -/
def LatLngBounds.overlaps (b : LatLngBounds) (arg : Option BoundsCon) : Option Bool := do
  let b2 ← LatLngBounds.mkBounds arg none
  let sw ← b.southWest
  let ne ← b.northEast
  let sw2 ← b2.southWest
  let ne2 ← b2.northEast
  some ((jsGt ne2.lat sw.lat && jsLt sw2.lat ne.lat) &&
        (jsGt ne2.lng sw.lng && jsLt sw2.lng ne.lng))

/-- Decimal rendering of a nonnegative rational `n / d` in the style of
JavaScript number-to-string conversion: no trailing fractional zeros,
no decimal point for integers.  (Used only on rationals with a
terminating decimal expansion.) -/
def ratToStringNN (n d : ℕ) : String :=
  let k := (((List.range 101).find? fun k => (10 ^ k * n) % d == 0).getD 0)
  if k = 0 then toString (n / d)
  else
    let m := 10 ^ k * n / d
    let frac := toString (m % 10 ^ k)
    let fracPadded := String.mk (List.replicate (k - frac.length) '0') ++ frac
    toString (m / 10 ^ k) ++ "." ++ fracPadded

/-- JavaScript number-to-string conversion for the values handled by
this development. -/
def jsNumToString : JSNum → String
  | .num q =>
    if q.num < 0 then "-" ++ ratToStringNN (-q.num).toNat q.den
    else ratToStringNN q.num.toNat q.den
  | .nan => "NaN"
  | .inf => "Infinity"
  | .negInf => "-Infinity"

/-- `Array.prototype.join(',')` over already-rendered elements. -/
def joinComma : List String → String
  | [] => ""
  | [s] => s
  | s :: rest => s ++ "," ++ joinComma rest

/-- Model of `toBBoxString()`:
`[getWest(), getSouth(), getEast(), getNorth()].join(',')`. -/
def LatLngBounds.toBBoxString (b : LatLngBounds) : Option String := do
  let w ← b.getWest
  let s ← b.getSouth
  let e ← b.getEast
  let n ← b.getNorth
  some (joinComma [jsNumToString w, jsNumToString s, jsNumToString e, jsNumToString n])

/-- Model of `LatLngBounds.prototype.equals(bounds, maxMargin)`:
`false` for a falsy argument; otherwise normalizes the argument
through the constructor and compares corners with `LatLng.equals`
under the same margin, short-circuiting on the south-west corner. -/
def LatLngBounds.boundsEquals (b : LatLngBounds) (arg : Option BoundsCon)
    (maxMargin : Option JSNum) : Option Bool :=
  match arg with
  | none => some false
  | some con =>
    if conTruthy con then do
      let b2 ← LatLngBounds.mkBounds (some con) none
      let sw ← b.southWest
      let r1 ← LatLng.equals sw (b2.southWest.map .pt) maxMargin
      if r1 then do
        let ne ← b.northEast
        LatLng.equals ne (b2.northEast.map .pt) maxMargin
      else some false
    else some false

/-! Basic facts about the JavaScript operators. -/

theorem jsLe_ne_nan {a b : JSNum} (h : jsLe a b = true) :
    a ≠ JSNum.nan ∧ b ≠ JSNum.nan := by
  cases a <;> cases b <;> simp_all [jsLe]

theorem jsLe_refl {a : JSNum} (h : a ≠ JSNum.nan) : jsLe a a = true := by
  cases a <;> simp_all [jsLe]

theorem jsLe_trans {a b c : JSNum} (h1 : jsLe a b = true) (h2 : jsLe b c = true) :
    jsLe a c = true := by
  cases a <;> cases b <;> cases c <;> simp_all [jsLe]
  exact le_trans h1 h2

theorem jsLt_irrefl (a : JSNum) : jsLt a a = false := by
  cases a <;> simp [jsLt]

theorem jsMin_le_left {a b : JSNum} (ha : a ≠ JSNum.nan) (hb : b ≠ JSNum.nan) :
    jsLe (jsMin a b) a = true := by
  cases a <;> cases b <;> simp_all [jsLe, jsMin, min_le_left]

theorem jsMin_le_right {a b : JSNum} (ha : a ≠ JSNum.nan) (hb : b ≠ JSNum.nan) :
    jsLe (jsMin a b) b = true := by
  cases a <;> cases b <;> simp_all [jsLe, jsMin, min_le_right]

theorem jsLe_max_left {a b : JSNum} (ha : a ≠ JSNum.nan) (hb : b ≠ JSNum.nan) :
    jsLe a (jsMax a b) = true := by
  cases a <;> cases b <;> simp_all [jsLe, jsMax, le_max_left]

theorem jsLe_max_right {a b : JSNum} (ha : a ≠ JSNum.nan) (hb : b ≠ JSNum.nan) :
    jsLe b (jsMax a b) = true := by
  cases a <;> cases b <;> simp_all [jsLe, jsMax, le_max_right]

theorem jsMin_ne_nan_iff {a b : JSNum} :
    jsMin a b ≠ JSNum.nan ↔ a ≠ JSNum.nan ∧ b ≠ JSNum.nan := by
  cases a <;> cases b <;> simp [jsMin]

theorem jsMax_ne_nan_iff {a b : JSNum} :
    jsMax a b ≠ JSNum.nan ↔ a ≠ JSNum.nan ∧ b ≠ JSNum.nan := by
  cases a <;> cases b <;> simp [jsMax]

/-- Presence-or-zero: the source's `(x || x === 0)` test on a number is
exactly "not `NaN`". -/
theorem truthyOrZero_eq_not_nan (a : JSNum) :
    (jsTruthy a || decide (a = JSNum.num 0)) = !(a == JSNum.nan) := by
  cases a with
  | num q => by_cases hq : q = 0 <;> simp [jsTruthy, hq]
  | nan => simp [jsTruthy]
  | inf => simp [jsTruthy]
  | negInf => simp [jsTruthy]

/-- Characterization of `validate` for two bare scalars: both must be
present and not `NaN`. -/
theorem validate_num_eq (a : JSNum) (b alt : Option JSNum) :
    LatLng.validate (.num a) b alt =
      (!(a == JSNum.nan) &&
        match b with
        | some x => !(x == JSNum.nan)
        | none => false) := by
  cases b with
  | none => simp [LatLng.validate]
  | some x => simp only [LatLng.validate, truthyOrZero_eq_not_nan]

/-- Construction from two non-`NaN` scalars succeeds and stores them
unchanged. -/
theorem construct_num {a b : JSNum} (alt : Option JSNum)
    (ha : a ≠ JSNum.nan) (hb : b ≠ JSNum.nan) :
    LatLng.construct (.num a) (some b) alt = some ⟨a, b, alt⟩ := by
  simp [LatLng.construct, validate_num_eq, ha, hb, jsPlusCoerce]

/-- A `LatLng` with no `NaN` coordinate. -/
def LatLng.nonNaN (p : LatLng) : Prop :=
  p.lat ≠ JSNum.nan ∧ p.lng ≠ JSNum.nan

instance : DecidablePred LatLng.nonNaN := fun _ => instDecidableAnd

/-- A `LatLngBounds` with both corners set and free of `NaN`. -/
def GoodB (b : LatLngBounds) : Prop :=
  ∃ sw ne, b.southWest = some sw ∧ b.northEast = some ne ∧ sw.nonNaN ∧ ne.nonNaN

/-- The bounds built by successively extending an empty bounds with
each point of a list. -/
def buildBounds (ps : List LatLng) : Option LatLngBounds :=
  ps.foldlM (fun b p => LatLngBounds.extend b (.pt p)) LatLngBounds.empty

/-- Unfolding of `contains` at a point argument on a bounds with both
corners set. -/
theorem contains_pt_eq {b : LatLngBounds} {sw ne : LatLng}
    (hsw : b.southWest = some sw) (hne : b.northEast = some ne) (q : LatLng) :
    LatLngBounds.contains b (.pt q) =
      some (jsLe sw.lat q.lat && jsLe q.lat ne.lat &&
            jsLe sw.lng q.lng && jsLe q.lng ne.lng) := by
  simp [LatLngBounds.contains, hsw, hne, jsGe]

/-- Unfolding of `extend` at a point argument on a bounds with both
corners set: in-place `Math.min`/`Math.max` widening. -/
theorem extendPt_set {b : LatLngBounds} {sw ne : LatLng} (p : LatLng)
    (hsw : b.southWest = some sw) (hne : b.northEast = some ne) :
    LatLngBounds.extend b (.pt p) =
      some ⟨some ⟨jsMin p.lat sw.lat, jsMin p.lng sw.lng, sw.alt⟩,
            some ⟨jsMax p.lat ne.lat, jsMax p.lng ne.lng, ne.alt⟩⟩ := by
  simp [LatLngBounds.extend, LatLngBounds.extendCorners, hsw, hne]

/-- Unfolding of `extend` at a point argument on the empty bounds: both
corners become fresh copies of the point. -/
theorem extendPt_empty {p : LatLng} (hp : p.nonNaN) :
    LatLngBounds.extend LatLngBounds.empty (.pt p) =
      some ⟨some ⟨p.lat, p.lng, none⟩, some ⟨p.lat, p.lng, none⟩⟩ := by
  simp [LatLngBounds.extend, LatLngBounds.extendCorners, LatLngBounds.empty,
        construct_num _ hp.1 hp.2]

/-- Folding point-extensions over a bounds that already has `NaN`-free
corners succeeds, preserves that state, preserves point containment,
and ends containing every extended point. -/
theorem build_invariant (ps : List LatLng) (h : ∀ p ∈ ps, p.nonNaN)
    (b : LatLngBounds) (hb : GoodB b) :
    ∃ b', ps.foldlM (fun b p => LatLngBounds.extend b (.pt p)) b = some b' ∧
      GoodB b' ∧
      (∀ q, LatLngBounds.contains b (.pt q) = some true →
            LatLngBounds.contains b' (.pt q) = some true) ∧
      (∀ p ∈ ps, LatLngBounds.contains b' (.pt p) = some true) := by
  induction ps generalizing b with
  | nil => exact ⟨b, rfl, hb, fun _ hq => hq, by simp⟩
  | cons p rest ih =>
    obtain ⟨sw, ne, hsw, hne, hswn, hnen⟩ := hb
    have hp : p.nonNaN := h p (by simp)
    have hstep := extendPt_set p hsw hne
    set b1 : LatLngBounds :=
      ⟨some ⟨jsMin p.lat sw.lat, jsMin p.lng sw.lng, sw.alt⟩,
       some ⟨jsMax p.lat ne.lat, jsMax p.lng ne.lng, ne.alt⟩⟩ with hb1
    have hb1sw : b1.southWest = some ⟨jsMin p.lat sw.lat, jsMin p.lng sw.lng, sw.alt⟩ := rfl
    have hb1ne : b1.northEast = some ⟨jsMax p.lat ne.lat, jsMax p.lng ne.lng, ne.alt⟩ := rfl
    have hminlat : jsMin p.lat sw.lat ≠ JSNum.nan := jsMin_ne_nan_iff.mpr ⟨hp.1, hswn.1⟩
    have hminlng : jsMin p.lng sw.lng ≠ JSNum.nan := jsMin_ne_nan_iff.mpr ⟨hp.2, hswn.2⟩
    have hmaxlat : jsMax p.lat ne.lat ≠ JSNum.nan := jsMax_ne_nan_iff.mpr ⟨hp.1, hnen.1⟩
    have hmaxlng : jsMax p.lng ne.lng ≠ JSNum.nan := jsMax_ne_nan_iff.mpr ⟨hp.2, hnen.2⟩
    have hgood1 : GoodB b1 :=
      ⟨_, _, hb1sw, hb1ne, ⟨hminlat, hminlng⟩, ⟨hmaxlat, hmaxlng⟩⟩
    have hmono : ∀ q, LatLngBounds.contains b (.pt q) = some true →
        LatLngBounds.contains b1 (.pt q) = some true := by
      intro q hq
      rw [contains_pt_eq hsw hne] at hq
      rw [contains_pt_eq hb1sw hb1ne]
      simp only [Option.some_inj, Bool.and_eq_true] at hq ⊢
      obtain ⟨⟨⟨h1, h2⟩, h3⟩, h4⟩ := hq
      exact ⟨⟨⟨jsLe_trans (jsMin_le_right hp.1 hswn.1) h1,
        jsLe_trans h2 (jsLe_max_right hp.1 hnen.1)⟩,
        jsLe_trans (jsMin_le_right hp.2 hswn.2) h3⟩,
        jsLe_trans h4 (jsLe_max_right hp.2 hnen.2)⟩
    have hinp : LatLngBounds.contains b1 (.pt p) = some true := by
      rw [contains_pt_eq hb1sw hb1ne]
      simp only [Option.some_inj, Bool.and_eq_true]
      exact ⟨⟨⟨jsMin_le_left hp.1 hswn.1, jsLe_max_left hp.1 hnen.1⟩,
        jsMin_le_left hp.2 hswn.2⟩, jsLe_max_left hp.2 hnen.2⟩
    obtain ⟨b', hfold, hgood', hmono', hall⟩ :=
      ih (fun x hx => h x (by simp [hx])) b1 hgood1
    refine ⟨b', ?_, hgood', fun q hq => hmono' q (hmono q hq), ?_⟩
    · simpa [List.foldlM, hstep] using hfold
    · intro x hx
      rcases List.mem_cons.mp hx with rfl | hx'
      · exact hmono' x hinp
      · exact hall x hx'

/-- C2: for every finite sequence of valid (`NaN`-free) GeoPoints, the
GeoBounds built by successively calling `extend` with each point of
the sequence, starting from an empty bounds, satisfies
`contains(p) = true` for every point `p` of the sequence, `contains`
using inclusive comparisons on both axes. -/
theorem C2_bounds_built_by_extension_contains_all (ps : List LatLng)
    (h : ∀ p ∈ ps, p.nonNaN) :
    ∃ b, buildBounds ps = some b ∧
      ∀ p ∈ ps, LatLngBounds.contains b (.pt p) = some true := by
  cases ps with
  | nil => exact ⟨LatLngBounds.empty, rfl, by simp⟩
  | cons p rest =>
    have hp : p.nonNaN := h p (by simp)
    have hstep := extendPt_empty hp
    have hgood1 : GoodB ⟨some ⟨p.lat, p.lng, none⟩, some ⟨p.lat, p.lng, none⟩⟩ :=
      ⟨_, _, rfl, rfl, hp, hp⟩
    have hinp : LatLngBounds.contains
        (⟨some ⟨p.lat, p.lng, none⟩, some ⟨p.lat, p.lng, none⟩⟩ : LatLngBounds)
        (.pt p) = some true := by
      rw [contains_pt_eq rfl rfl]
      simp only [Option.some_inj, Bool.and_eq_true]
      exact ⟨⟨⟨jsLe_refl hp.1, jsLe_refl hp.1⟩, jsLe_refl hp.2⟩, jsLe_refl hp.2⟩
    obtain ⟨b', hfold, _, hmono, hall⟩ :=
      build_invariant rest (fun x hx => h x (by simp [hx])) _ hgood1
    refine ⟨b', ?_, ?_⟩
    · simpa [buildBounds, List.foldlM, hstep] using hfold
    · intro x hx
      rcases List.mem_cons.mp hx with rfl | hx'
      · exact hmono x hinp
      · exact hall x hx'

/-- Witness for C2 at a concrete two-point sequence. -/
theorem C2_witness :
    ∃ b, buildBounds [⟨.num 1, .num 2, none⟩, ⟨.num 40, .num (-3), none⟩] = some b ∧
      ∀ p ∈ [(⟨.num 1, .num 2, none⟩ : LatLng), ⟨.num 40, .num (-3), none⟩],
        LatLngBounds.contains b (.pt p) = some true :=
  C2_bounds_built_by_extension_contains_all _ (by decide)

/-- C1 counterexample: `new LatLng(Infinity, 0)` does not throw — it
constructs successfully and stores `lat = Infinity` — refuting the
claim that construction fails whenever a coordinate is not finite. -/
theorem C1_counterexample_infinity_accepted :
    LatLng.construct (.num .inf) (some (.num 0)) none =
      some ⟨.inf, .num 0, none⟩ := by decide

/-- C1 amended: for the two-scalar shape, construction raises the
invalid-coordinate error exactly when `lat` is `NaN`, `lng` is `NaN`,
or `lng` is missing; any other values — the infinities included — are
accepted and stored unchanged. -/
theorem C1_amended_scalar_construction (a : JSNum) (b alt : Option JSNum) :
    LatLng.construct (.num a) b alt =
      (match b with
       | some x =>
         if a = JSNum.nan ∨ x = JSNum.nan then none else some ⟨a, x, alt⟩
       | none => none) := by
  cases b with
  | none => simp [LatLng.construct, LatLng.validate]
  | some x =>
    by_cases ha : a = JSNum.nan
    · simp [LatLng.construct, validate_num_eq, ha]
    · by_cases hx : x = JSNum.nan
      · simp [LatLng.construct, validate_num_eq, ha, hx]
      · simp [construct_num alt ha hx, ha, hx]

/-- C8: the zero coordinate is valid despite being falsy:
`validate(0, 0)` is true and `new LatLng(0, 0)` constructs with
`lat = 0` and `lng = 0`; likewise any mixed case where one of
`lat`/`lng` is `0` and the other is any (finite) number. -/
theorem C8_zero_coordinate_valid :
    LatLng.validate (.num (.num 0)) (some (.num 0)) none = true ∧
    LatLng.construct (.num (.num 0)) (some (.num 0)) none =
      some ⟨.num 0, .num 0, none⟩ ∧
    ∀ q : ℚ,
      LatLng.validate (.num (.num 0)) (some (.num q)) none = true ∧
      LatLng.validate (.num (.num q)) (some (.num 0)) none = true ∧
      LatLng.construct (.num (.num 0)) (some (.num q)) none =
        some ⟨.num 0, .num q, none⟩ ∧
      LatLng.construct (.num (.num q)) (some (.num 0)) none =
        some ⟨.num q, .num 0, none⟩ := by
  refine ⟨by decide, by decide, fun q => ⟨?_, ?_, ?_, ?_⟩⟩
  · simp [validate_num_eq]
  · simp [validate_num_eq]
  · exact construct_num none (by simp) (by simp)
  · exact construct_num none (by simp) (by simp)

/-- C9: copy-construction aliases rather than clones: `new LatLng(p)`
with an existing `LatLng` as sole (validated) argument returns `p`
itself, unchanged — no field is re-normalized, `alt` included — and
`new LatLngBounds(b)` with an existing `LatLngBounds` returns `b`
itself, whatever its state. -/
theorem C9_copy_construction_aliases :
    (∀ (p : LatLng) (lng alt : Option JSNum),
      LatLng.construct (.pt p) lng alt = some p) ∧
    (∀ (b : LatLngBounds) (c2 : Option ExtendObj),
      LatLngBounds.mkBounds (some (.bounds b)) c2 = some b) := by
  constructor
  · intro p lng alt
    simp [LatLng.construct, LatLng.validate]
  · intro b c2
    simp [LatLngBounds.mkBounds, conTruthy]

/-- Unfolding of `extendCorners` on a bounds with both corners set. -/
theorem extendCorners_set {b : LatLngBounds} {sw ne : LatLng} (sw2 ne2 : LatLng)
    (hsw : b.southWest = some sw) (hne : b.northEast = some ne) :
    LatLngBounds.extendCorners b sw2 ne2 =
      some ⟨some ⟨jsMin sw2.lat sw.lat, jsMin sw2.lng sw.lng, sw.alt⟩,
            some ⟨jsMax ne2.lat ne.lat, jsMax ne2.lng ne.lng, ne.alt⟩⟩ := by
  simp [LatLngBounds.extendCorners, hsw, hne]

/-- Unfolding of `extendCorners` on a bounds with no corner set, for
`NaN`-free arguments. -/
theorem extendCorners_unset {b : LatLngBounds} (sw2 ne2 : LatLng)
    (hsw : b.southWest = none) (hne : b.northEast = none)
    (h1 : sw2.nonNaN) (h2 : ne2.nonNaN) :
    LatLngBounds.extendCorners b sw2 ne2 =
      some ⟨some ⟨sw2.lat, sw2.lng, none⟩, some ⟨ne2.lat, ne2.lng, none⟩⟩ := by
  simp [LatLngBounds.extendCorners, hsw, hne,
        construct_num _ h1.1 h1.2, construct_num _ h2.1 h2.2]

/-- The two legal states of a `LatLngBounds`: empty (neither corner
set), or defined with both corners set and ordered on both axes. -/
def LatLngBounds.Inv (b : LatLngBounds) : Prop :=
  (b.southWest = none ∧ b.northEast = none) ∨
  (∃ sw ne, b.southWest = some sw ∧ b.northEast = some ne ∧
    jsLe sw.lat ne.lat = true ∧ jsLe sw.lng ne.lng = true)

/-- Extend arguments within the data model's contract: a `NaN`-free
point, a bounds satisfying the invariant, or an absent argument. -/
def GoodArg : ExtendObj → Prop
  | .pt p => p.nonNaN
  | .bounds b2 => LatLngBounds.Inv b2
  | .undef => True
  | .arg _ => False

/-- Whether an `extend` argument actually widens the receiver: a point
always does, a bounds does exactly when it is itself valid, an absent
argument never does. -/
def extendEffective : ExtendObj → Bool
  | .pt _ => true
  | .bounds b2 => b2.isValid
  | _ => false

/-- C3: every GeoBounds satisfying the two-state invariant stays in it
under any contract-respecting `extend` call: the call succeeds, the
result is again empty-or-ordered-defined, a defined bounds never
becomes empty, and an empty bounds becomes defined exactly when the
argument is effective (the first successful extend). -/
theorem C3_state_machine (b : LatLngBounds) (o : ExtendObj)
    (hb : LatLngBounds.Inv b) (ho : GoodArg o) :
    ∃ b', LatLngBounds.extend b o = some b' ∧ LatLngBounds.Inv b' ∧
      b'.isValid = (b.isValid || extendEffective o) := by
  cases o with
  | undef =>
    exact ⟨b, rfl, hb, by simp [extendEffective]⟩
  | arg a => exact absurd ho id
  | pt p =>
    have hp : p.nonNaN := ho
    rcases hb with ⟨hsw, hne⟩ | ⟨sw, ne, hsw, hne, h1, h2⟩
    · have hE : LatLngBounds.extend b (.pt p) =
          some ⟨some ⟨p.lat, p.lng, none⟩, some ⟨p.lat, p.lng, none⟩⟩ := by
        simpa [LatLngBounds.extend] using extendCorners_unset p p hsw hne hp hp
      refine ⟨_, hE, ?_, ?_⟩
      · exact Or.inr ⟨_, _, rfl, rfl, jsLe_refl hp.1, jsLe_refl hp.2⟩
      · simp [LatLngBounds.isValid, hsw, hne, extendEffective]
    · have hswn : sw.nonNaN := ⟨(jsLe_ne_nan h1).1, (jsLe_ne_nan h2).1⟩
      have hnen : ne.nonNaN := ⟨(jsLe_ne_nan h1).2, (jsLe_ne_nan h2).2⟩
      have hE : LatLngBounds.extend b (.pt p) =
          some ⟨some ⟨jsMin p.lat sw.lat, jsMin p.lng sw.lng, sw.alt⟩,
                some ⟨jsMax p.lat ne.lat, jsMax p.lng ne.lng, ne.alt⟩⟩ := by
        simpa [LatLngBounds.extend] using extendCorners_set (b := b) p p hsw hne
      refine ⟨_, hE, ?_, ?_⟩
      · refine Or.inr ⟨_, _, rfl, rfl, ?_, ?_⟩
        · exact jsLe_trans (jsMin_le_left hp.1 hswn.1) (jsLe_max_left hp.1 hnen.1)
        · exact jsLe_trans (jsMin_le_left hp.2 hswn.2) (jsLe_max_left hp.2 hnen.2)
      · simp [LatLngBounds.isValid, hsw, hne, extendEffective]
  | bounds b2 =>
    rcases ho with ⟨hsw2, hne2⟩ | ⟨sw2, ne2, hsw2, hne2, g1, g2⟩
    · refine ⟨b, ?_, hb, ?_⟩
      · simp [LatLngBounds.extend, LatLngBounds.extendBounds, hsw2, hne2]
      · simp [extendEffective, LatLngBounds.isValid, hsw2]
    · have hs2n : sw2.nonNaN := ⟨(jsLe_ne_nan g1).1, (jsLe_ne_nan g2).1⟩
      have hn2n : ne2.nonNaN := ⟨(jsLe_ne_nan g1).2, (jsLe_ne_nan g2).2⟩
      rcases hb with ⟨hsw, hne⟩ | ⟨sw, ne, hsw, hne, h1, h2⟩
      · have hE : LatLngBounds.extend b (.bounds b2) =
            some ⟨some ⟨sw2.lat, sw2.lng, none⟩, some ⟨ne2.lat, ne2.lng, none⟩⟩ := by
          simpa [LatLngBounds.extend, LatLngBounds.extendBounds, hsw2, hne2]
            using extendCorners_unset sw2 ne2 hsw hne hs2n hn2n
        refine ⟨_, hE, ?_, ?_⟩
        · exact Or.inr ⟨_, _, rfl, rfl, g1, g2⟩
        · simp [LatLngBounds.isValid, hsw, hne, extendEffective, hsw2, hne2]
      · have hswn : sw.nonNaN := ⟨(jsLe_ne_nan h1).1, (jsLe_ne_nan h2).1⟩
        have hnen : ne.nonNaN := ⟨(jsLe_ne_nan h1).2, (jsLe_ne_nan h2).2⟩
        have hE : LatLngBounds.extend b (.bounds b2) =
            some ⟨some ⟨jsMin sw2.lat sw.lat, jsMin sw2.lng sw.lng, sw.alt⟩,
                  some ⟨jsMax ne2.lat ne.lat, jsMax ne2.lng ne.lng, ne.alt⟩⟩ := by
          simpa [LatLngBounds.extend, LatLngBounds.extendBounds, hsw2, hne2]
            using extendCorners_set (b := b) sw2 ne2 hsw hne
        refine ⟨_, hE, ?_, ?_⟩
        · refine Or.inr ⟨_, _, rfl, rfl, ?_, ?_⟩
          · exact jsLe_trans (jsMin_le_left hs2n.1 hswn.1)
              (jsLe_trans g1 (jsLe_max_left hn2n.1 hnen.1))
          · exact jsLe_trans (jsMin_le_left hs2n.2 hswn.2)
              (jsLe_trans g2 (jsLe_max_left hn2n.2 hnen.2))
        · simp [LatLngBounds.isValid, hsw, hne, extendEffective, hsw2, hne2]

/-- Witness for C3: the first extend of an empty bounds with a concrete
point moves it to the defined state. -/
theorem C3_witness :
    ∃ b', LatLngBounds.extend LatLngBounds.empty (.pt ⟨.num 5, .num 6, none⟩) = some b' ∧
      LatLngBounds.Inv b' ∧
      b'.isValid = (LatLngBounds.empty.isValid ||
        extendEffective (.pt ⟨.num 5, .num 6, none⟩)) :=
  C3_state_machine LatLngBounds.empty (.pt ⟨.num 5, .num 6, none⟩)
    (Or.inl ⟨rfl, rfl⟩) (by constructor <;> decide)

/-- C4: for every pair of valid bounds whose rectangles meet (the
inclusive per-axis intersection test holds) while touching
boundary-to-boundary on some axis (one rectangle's maximum equals the
other's minimum there — a shared edge or corner, zero-area
intersection), `intersects` returns `true` and `overlaps` returns
`false`. -/
theorem C4_touch_intersects_without_overlap
    (a b : LatLngBounds) (sa na sb nb : LatLng)
    (hsa : a.southWest = some sa) (hna : a.northEast = some na)
    (hsb : b.southWest = some sb) (hnb : b.northEast = some nb)
    (hmlat : jsLe (jsMax sa.lat sb.lat) (jsMin na.lat nb.lat) = true)
    (hmlng : jsLe (jsMax sa.lng sb.lng) (jsMin na.lng nb.lng) = true)
    (htouch : na.lat = sb.lat ∨ nb.lat = sa.lat ∨ na.lng = sb.lng ∨ nb.lng = sa.lng) :
    a.intersects (some (.bounds b)) = some true ∧
    a.overlaps (some (.bounds b)) = some false := by
  have hlat := jsLe_ne_nan hmlat
  have hlng := jsLe_ne_nan hmlng
  obtain ⟨hsal, hsbl⟩ := jsMax_ne_nan_iff.mp hlat.1
  obtain ⟨hnal, hnbl⟩ := jsMin_ne_nan_iff.mp hlat.2
  obtain ⟨hsag, hsbg⟩ := jsMax_ne_nan_iff.mp hlng.1
  obtain ⟨hnag, hnbg⟩ := jsMin_ne_nan_iff.mp hlng.2
  constructor
  · have e1 : jsLe sa.lat nb.lat = true :=
      jsLe_trans (jsLe_max_left hsal hsbl) (jsLe_trans hmlat (jsMin_le_right hnal hnbl))
    have e2 : jsLe sb.lat na.lat = true :=
      jsLe_trans (jsLe_max_right hsal hsbl) (jsLe_trans hmlat (jsMin_le_left hnal hnbl))
    have e3 : jsLe sa.lng nb.lng = true :=
      jsLe_trans (jsLe_max_left hsag hsbg) (jsLe_trans hmlng (jsMin_le_right hnag hnbg))
    have e4 : jsLe sb.lng na.lng = true :=
      jsLe_trans (jsLe_max_right hsag hsbg) (jsLe_trans hmlng (jsMin_le_left hnag hnbg))
    simp [LatLngBounds.intersects, LatLngBounds.mkBounds, conTruthy,
          hsa, hna, hsb, hnb, jsGe, e1, e2, e3, e4]
  · rcases htouch with h | h | h | h
    · simp [LatLngBounds.overlaps, LatLngBounds.mkBounds, conTruthy,
            hsa, hna, hsb, hnb, jsGt, h.symm, jsLt_irrefl]
    · simp [LatLngBounds.overlaps, LatLngBounds.mkBounds, conTruthy,
            hsa, hna, hsb, hnb, jsGt, h, jsLt_irrefl]
    · simp [LatLngBounds.overlaps, LatLngBounds.mkBounds, conTruthy,
            hsa, hna, hsb, hnb, jsGt, h.symm, jsLt_irrefl]
    · simp [LatLngBounds.overlaps, LatLngBounds.mkBounds, conTruthy,
            hsa, hna, hsb, hnb, jsGt, h, jsLt_irrefl]

/-- Witness for C4 at the spec's concrete scenario:
`[0,0]×[10,10]` against `[10,10]×[20,20]`. -/
theorem C4_witness :
    LatLngBounds.intersects
      ⟨some ⟨.num 0, .num 0, none⟩, some ⟨.num 10, .num 10, none⟩⟩
      (some (.bounds ⟨some ⟨.num 10, .num 10, none⟩, some ⟨.num 20, .num 20, none⟩⟩)) =
      some true ∧
    LatLngBounds.overlaps
      ⟨some ⟨.num 0, .num 0, none⟩, some ⟨.num 10, .num 10, none⟩⟩
      (some (.bounds ⟨some ⟨.num 10, .num 10, none⟩, some ⟨.num 20, .num 20, none⟩⟩)) =
      some false :=
  C4_touch_intersects_without_overlap _ _ _ _ _ _ rfl rfl rfl rfl
    (by decide) (by decide) (Or.inl (by decide))

/-- C5: on a valid bounds with ordered finite corners, `pad(0)` returns
a fresh `LatLngBounds` whose corner coordinates equal the receiver's,
and the receiver's own `equals` accepts the result under the default
margin.  (`pad` builds its result from freshly constructed corner
points and writes no field of the receiver, so non-mutation holds by
construction in this embedding.) -/
theorem C5_pad_zero_preserves_bounds (b : LatLngBounds)
    (qsla qsln qnla qnln : ℚ) (aswalt analt : Option JSNum)
    (hsw : b.southWest = some ⟨.num qsla, .num qsln, aswalt⟩)
    (hne : b.northEast = some ⟨.num qnla, .num qnln, analt⟩)
    (hlat : qsla ≤ qnla) (hlng : qsln ≤ qnln) :
    b.pad (.num 0) =
      some ⟨some ⟨.num qsla, .num qsln, none⟩, some ⟨.num qnla, .num qnln, none⟩⟩ ∧
    b.boundsEquals
      (some (.bounds ⟨some ⟨.num qsla, .num qsln, none⟩,
                      some ⟨.num qnla, .num qnln, none⟩⟩)) none = some true := by
  constructor
  · simp only [LatLngBounds.pad, hsw, hne, jsSub, jsNeg, jsAdd, jsAbs, jsMul,
      mul_zero, neg_zero, add_zero]
    rw [construct_num none (by simp) (by simp), construct_num none (by simp) (by simp)]
    simp only [Option.bind_eq_bind, Option.some_bind]
    simp only [LatLngBounds.mkBounds, conTruthy, extTruthy, List.foldlM,
      LatLngBounds.extend, LatLngBounds.extendCorners, LatLngBounds.empty]
    rw [construct_num none (by simp) (by simp), construct_num none (by simp) (by simp)]
    simp only [Option.bind_eq_bind, Option.some_bind, jsMin, jsMax,
      min_eq_right hlat, min_eq_right hlng, max_eq_left hlat, max_eq_left hlng]
    simp
  · simp only [LatLngBounds.boundsEquals, conTruthy, LatLngBounds.mkBounds,
      Option.bind_eq_bind, Option.some_bind, hsw, hne, Option.map_some,
      LatLng.equals, argTruthy, LatLng.construct, LatLng.validate, if_true,
      jsSub, jsNeg, jsAdd, jsAbs, jsMax]
    norm_num [jsLe]

/-- Witness for C5 at a concrete bounds. -/
theorem C5_witness :
    LatLngBounds.pad
      ⟨some ⟨.num 1, .num 2, none⟩, some ⟨.num 3, .num 4, none⟩⟩ (.num 0) =
      some ⟨some ⟨.num 1, .num 2, none⟩, some ⟨.num 3, .num 4, none⟩⟩ ∧
    LatLngBounds.boundsEquals
      ⟨some ⟨.num 1, .num 2, none⟩, some ⟨.num 3, .num 4, none⟩⟩
      (some (.bounds ⟨some ⟨.num 1, .num 2, none⟩, some ⟨.num 3, .num 4, none⟩⟩))
      none = some true :=
  C5_pad_zero_preserves_bounds _ 1 2 3 4 none none rfl rfl
    (by norm_num) (by norm_num)

/-- Point equality within tolerance as the specification words it: the
maximum of the absolute per-axis differences is at most the margin. -/
def specEquals (plat plng olat olng m : ℚ) : Bool :=
  decide (max |plat - olat| |plng - olng| ≤ m)

/-- C6: `equals` on two points returns exactly the spec's predicate —
the maximum of the absolute per-axis differences compared (`<=`)
against the margin — with the margin defaulting to `1.0E-9` when not
supplied, and returns `false` without throwing when the comparison
argument is absent or `null`. -/
theorem C6_equals_is_max_abs_diff_le_margin :
    (∀ (plat plng olat olng m : ℚ) (palt oalt : Option JSNum),
      LatLng.equals ⟨.num plat, .num plng, palt⟩
        (some (.pt ⟨.num olat, .num olng, oalt⟩)) (some (.num m)) =
        some (specEquals plat plng olat olng m)) ∧
    (∀ (plat plng olat olng : ℚ) (palt oalt : Option JSNum),
      LatLng.equals ⟨.num plat, .num plng, palt⟩
        (some (.pt ⟨.num olat, .num olng, oalt⟩)) none =
        some (specEquals plat plng olat olng (1 / 1000000000))) ∧
    (∀ (p : LatLng) (m : Option JSNum), LatLng.equals p none m = some false) := by
  refine ⟨fun plat plng olat olng m palt oalt => ?_,
    fun plat plng olat olng palt oalt => ?_, fun p m => rfl⟩
  · simp [LatLng.equals, argTruthy, LatLng.construct, LatLng.validate,
      jsSub, jsNeg, jsAdd, jsAbs, jsMax, jsLe, specEquals, sub_eq_add_neg]
  · simp [LatLng.equals, argTruthy, LatLng.construct, LatLng.validate,
      jsSub, jsNeg, jsAdd, jsAbs, jsMax, jsLe, specEquals, sub_eq_add_neg]

/-- C7: `toBBoxString` produces exactly the west, south, east and north
edges in that order joined by commas, and the spec's concrete scenario
renders as `"-105.02,39.61,-104.8,39.77"`. -/
theorem C7_toBBoxString_west_south_east_north :
    (∀ (b : LatLngBounds) (sw ne : LatLng),
      b.southWest = some sw → b.northEast = some ne →
      b.toBBoxString = some
        (jsNumToString sw.lng ++ "," ++ jsNumToString sw.lat ++ "," ++
         jsNumToString ne.lng ++ "," ++ jsNumToString ne.lat)) ∧
    ((LatLngBounds.mkBounds
      (some (.one (.arg (.arr [.num (mkRat 3961 100), .num (mkRat (-10502) 100)]))))
      (some (.arg (.arr [.num (mkRat 3977 100), .num (mkRat (-1048) 10)])))).bind
        LatLngBounds.toBBoxString) = some "-105.02,39.61,-104.8,39.77" := by
  constructor
  · intro b sw ne hsw hne
    simp [LatLngBounds.toBBoxString, LatLngBounds.getWest, LatLngBounds.getSouth,
      LatLngBounds.getEast, LatLngBounds.getNorth, hsw, hne, joinComma,
      String.append_assoc]
  · decide

/-- Witness for C7's general part at a concrete bounds. -/
theorem C7_witness :
    LatLngBounds.toBBoxString
      ⟨some ⟨.num 1, .num 2, none⟩, some ⟨.num 3, .num 4, none⟩⟩ =
      some (jsNumToString (.num 2) ++ "," ++ jsNumToString (.num 1) ++ "," ++
            jsNumToString (.num 4) ++ "," ++ jsNumToString (.num 3)) :=
  C7_toBBoxString_west_south_east_north.1 _ ⟨.num 1, .num 2, none⟩
    ⟨.num 3, .num 4, none⟩ rfl rfl

/-- C10: on an empty bounds, `pad`, `getCenter`, the four scalar edge
accessors, the two derived corner accessors, `toBBoxString` and
`equals` with a present bounds argument all dereference an unset
corner and throw; `isValid` answers `false`, `getSouthWest` and
`getNorthEast` return the unset value, and `extend` works (a no-op for
an absent argument, a corner-setting update for a `NaN`-free point). -/
theorem C10_empty_state_operations :
    (∀ r, LatLngBounds.empty.pad r = none) ∧
    LatLngBounds.empty.getCenter = none ∧
    LatLngBounds.empty.getWest = none ∧
    LatLngBounds.empty.getSouth = none ∧
    LatLngBounds.empty.getEast = none ∧
    LatLngBounds.empty.getNorth = none ∧
    LatLngBounds.empty.getNorthWest = none ∧
    LatLngBounds.empty.getSouthEast = none ∧
    LatLngBounds.empty.toBBoxString = none ∧
    (∀ (b2 : LatLngBounds) (m : Option JSNum),
      LatLngBounds.empty.boundsEquals (some (.bounds b2)) m = none) ∧
    LatLngBounds.empty.isValid = false ∧
    LatLngBounds.empty.getSouthWest = none ∧
    LatLngBounds.empty.getNorthEast = none ∧
    LatLngBounds.empty.extend .undef = some LatLngBounds.empty ∧
    (∀ p : LatLng, p.nonNaN →
      LatLngBounds.empty.extend (.pt p) =
        some ⟨some ⟨p.lat, p.lng, none⟩, some ⟨p.lat, p.lng, none⟩⟩) := by
  refine ⟨fun r => rfl, rfl, rfl, rfl, rfl, rfl, rfl, rfl, rfl,
    fun b2 m => ?_, rfl, rfl, rfl, rfl, fun p hp => extendPt_empty hp⟩
  simp [LatLngBounds.boundsEquals, conTruthy, LatLngBounds.mkBounds,
    LatLngBounds.empty]

/-- Witness for C10's extend-is-safe component at a concrete point. -/
theorem C10_witness :
    LatLngBounds.empty.extend (.pt ⟨.num 7, .num 8, none⟩) =
      some ⟨some ⟨.num 7, .num 8, none⟩, some ⟨.num 7, .num 8, none⟩⟩ := by
  have h := C10_empty_state_operations
  exact h.2.2.2.2.2.2.2.2.2.2.2.2.2.2 ⟨.num 7, .num 8, none⟩ (by decide)
